import Mathlib

namespace Rasterio

/-!
Shallow embedding of the rasterio warp module (`_warp.pyx`) and the
band-transfer helpers (`io_band`, `io_multi_band`, `io_multi_mask`),
with theorems checking the natural-language specification against the code.

Numeric coordinates and nodata values are modelled as rationals; engine
(GDAL) calls are modelled as oracle parameters supplying their observable
results; Python exceptions are modelled with `Except`.
-/
/-! ### Python `round` on rationals

`round(x, p)` in Python rounds to `p` decimal digits with ties to even.
We model numeric values as rationals, so `round` becomes: scale by `10^p`,
round to the nearest integer (ties to even), scale back. -/
/-- Nearest integer to a rational, ties going to the even integer
(the rounding mode of Python `round`). -/
def nearestTiesEven (q : ℚ) : ℤ :=
  let f := ⌊q⌋
  let r := q - (f : ℚ)
  if r < 1/2 then f
  else if 1/2 < r then f + 1
  else if Even f then f else f + 1

/-- Python `round(q, p)`: round `q` to `p` decimal digits (`p` may be
negative, in which case it rounds to a multiple of `10^(-p)`). -/
def pyRound (q : ℚ) (p : ℤ) : ℚ :=
  (nearestTiesEven (q * (10 : ℚ) ^ p) : ℚ) / (10 : ℚ) ^ p

/-! ### `recursive_round` (`_warp.pyx`, lines 31-36)

Python source:

    def recursive_round(val, precision):
        if isinstance(val, (int, float)):
            return round(val, precision)
        else:
            return [recursive_round(part, precision) for part in val]

`val` is a nested-list structure of numbers (GeoJSON coordinates), which we
embed as the inductive type `GeomVal`. -/
/-- A nested coordinate structure: either a number or a list of nested
structures, exactly the shapes `recursive_round` accepts. -/
inductive GeomVal where
  | num : ℚ → GeomVal
  | arr : List GeomVal → GeomVal

mutual

/-- Embedding of `recursive_round(val, precision)` from `_warp.pyx`. -/
def recursive_round (precision : ℤ) : GeomVal → GeomVal
  | .num q => .num (pyRound q precision)
  | .arr l => .arr (recursive_round_list precision l)

/-- The list comprehension `[recursive_round(part, precision) for part in val]`. -/
def recursive_round_list (precision : ℤ) : List GeomVal → List GeomVal
  | [] => []
  | v :: rest => recursive_round precision v :: recursive_round_list precision rest

end

mutual

/-- The nesting skeleton of a coordinate structure: every number replaced
by `0`, so two values have equal `shape` iff they have the same nesting
structure and the same list lengths everywhere. -/
def shape : GeomVal → GeomVal
  | .num _ => .num 0
  | .arr l => .arr (shapeList l)

/-- Pointwise `shape` on a list of coordinate structures. -/
def shapeList : List GeomVal → List GeomVal
  | [] => []
  | v :: rest => shape v :: shapeList rest

end

/-! ### GDAL string lists (`CSLSetNameValue`)

`CSLSetNameValue(list, key, value)` returns the list with `key=value` set,
replacing an existing entry for `key` or appending a new one. We embed the
NAME=VALUE string list as a `List (String × String)`. -/
/-- Embedding of GDAL `CSLSetNameValue`: set `k` to `v`, replacing an
existing entry or appending. -/
def CSLSetNameValue (l : List (String × String)) (k v : String) :
    List (String × String) :=
  if l.any fun p => p.1 == k then l.map fun p => if p.1 == k then (k, v) else p
  else l ++ [(k, v)]

/-- Look a key up in a NAME=VALUE list (GDAL `CSLFetchNameValue`). -/
def CSLFetchNameValue (l : List (String × String)) (k : String) : Option String :=
  (l.find? fun p => p.1 == k).map fun p => p.2

/-! ### `_transform_geom` (`_warp.pyx`, lines 39-96)

The CRS subsystem and the native geometry transform are external
collaborators; we model them as an oracle: `newTransformation` is
`OCTNewCoordinateTransformation` (with `None` meaning the `CPLErrors` scope
raised, caught and re-raised after freeing the spatial references), and
`transformWithOptions` is `factory.transformWithOptions` plus the
`GeomBuilder` round trip, producing the transformed coordinate structure or
a native error message. -/
/-- A GeoJSON-like geometry: a type tag and a nested coordinate structure. -/
structure Geometry where
  gtype : String
  coordinates : GeomVal

/-- Oracle for the external CRS / geometry-transform collaborators used by
`_transform_geom`. -/
structure TransformEngine where
  newTransformation : String → String → Option Unit
  transformWithOptions : List (String × String) → GeomVal → Except String GeomVal

/-- Failure kinds of `_transform_geom`: `crsError` is the re-raise when the
coordinate transformation cannot be built (spec `CRSError`), `nativeError`
a native failure reported by `cple.check()` around the transform itself. -/
inductive TransformGeomError where
  | crsError
  | nativeError (msg : String)
deriving DecidableEq, Repr

/-- The transform options built by `_transform_geom`: DATELINEOFFSET always,
WRAPDATELINE=YES only when `antimeridian_cutting` is true. -/
def transformOptions (antimeridian_offset : ℚ) (antimeridian_cutting : Bool) :
    List (String × String) :=
  let options := CSLSetNameValue [] "DATELINEOFFSET" (toString antimeridian_offset)
  if antimeridian_cutting then CSLSetNameValue options "WRAPDATELINE" "YES"
  else options

/-- Embedding of `_transform_geom` from `_warp.pyx`: build the coordinate
transformation, transform the geometry with the dateline options, and if
`precision >= 0` round every coordinate recursively. -/
def _transform_geom (E : TransformEngine) (src_crs dst_crs : String)
    (geom : Geometry) (antimeridian_cutting : Bool) (antimeridian_offset : ℚ)
    (precision : ℤ) : Except TransformGeomError Geometry :=
  match E.newTransformation src_crs dst_crs with
  | none => .error .crsError
  | some _ =>
    let options := transformOptions antimeridian_offset antimeridian_cutting
    match E.transformWithOptions options geom.coordinates with
    | .error m => .error (.nativeError m)
    | .ok coords =>
      if 0 ≤ precision then .ok ⟨geom.gtype, recursive_round precision coords⟩
      else .ok ⟨geom.gtype, coords⟩

/-- The identity oracle: every transformation path resolves and the native
transform returns the input coordinates unchanged (a CRS mapped to itself). -/
def identityTransformEngine : TransformEngine :=
  ⟨fun _ _ => some (), fun _ g => .ok g⟩

/-! ### Nodata policy of `_reproject` (`_warp.pyx`, lines 199-469)

The nodata-relevant state of a `_reproject` call: each side is either an
ndarray (with an optional masked-array `fill_value`) or a rasterio `Band`
namedtuple `(ds, bidx, dtype, shape)` whose dataset carries an optional
stored nodata. The element types are the seven dtypes declared in the
`_io` interface (`part_001`). -/
/-- The element types supported by the buffer bridge (`part_001`). -/
inductive Dtype where
  | uint8 | int16 | uint16 | int32 | uint32 | float32 | float64
deriving DecidableEq, Repr

/-- Smallest representable value of a dtype, as a rational. -/
def dtypeMin : Dtype → ℚ
  | .uint8 => 0
  | .int16 => -32768
  | .uint16 => 0
  | .int32 => -2147483648
  | .uint32 => 0
  | .float32 => -(2 ^ 128 - 2 ^ 104)
  | .float64 => -(2 ^ 1024 - 2 ^ 971)

/-- Largest representable value of a dtype, as a rational. -/
def dtypeMax : Dtype → ℚ
  | .uint8 => 255
  | .int16 => 32767
  | .uint16 => 65535
  | .int32 => 2147483647
  | .uint32 => 4294967295
  | .float32 => 2 ^ 128 - 2 ^ 104
  | .float64 => 2 ^ 1024 - 2 ^ 971

/-- Modelled from the spec: the body of `in_dtype_range` lives in the `_io`
module, which is not among the source files (only its declaration in
`part_001` is); the spec says both nodata values are "validated to lie
within the representable range of the respective side's element type". -/
def in_dtype_range (v : ℚ) (d : Dtype) : Bool :=
  decide (dtypeMin d ≤ v) && decide (v ≤ dtypeMax d)

/-- A source or destination argument of `_reproject`, reduced to the fields
the nodata logic reads: an ndarray (dtype, optional masked fill value, band
count after the 2-D to 3-D promotion) or a `Band` tuple (dtype, dataset
nodata, number of selected band indices). -/
inductive RasterInput where
  | ndarray (dtype : Dtype) (fillValue : Option ℚ) (bands : ℕ)
  | band (dtype : Dtype) (nodata : Option ℚ) (bands : ℕ)
deriving DecidableEq, Repr

/-- The dtype of a side (`source.dtype` / `destination.dtype`). -/
def RasterInput.dtypeOf : RasterInput → Dtype
  | .ndarray d _ _ => d
  | .band d _ _ => d

/-- The band count of a side (`shape[0]` of the 3-D array, or `len(bidx)`). -/
def RasterInput.bandsOf : RasterInput → ℕ
  | .ndarray _ _ b => b
  | .band _ _ b => b

/-- Nodata inheritance of `_reproject`: an explicitly given value wins;
otherwise an ndarray side inherits a masked buffer fill value and a `Band`
side inherits the dataset's stored nodata. -/
def inheritNodata (side : RasterInput) (given : Option ℚ) : Option ℚ :=
  match given, side with
  | some v, _ => some v
  | none, .ndarray _ fv _ => fv
  | none, .band _ nd _ => nd

/-- Failure kinds of the `_reproject` nodata pipeline, one per distinct
`raise` site: the destination shape check, the destination-nodata-without-
source-nodata check (spec `ConfigurationError`), and the two dtype-range
checks (spec `RangeError`). -/
inductive ReprojectError where
  | shapeError
  | configurationError
  | rangeError
deriving DecidableEq, Repr

/-- The destination shape check of `_reproject`: only an ndarray destination
is checked, against the source band count. -/
def shapeBad (source destination : RasterInput) : Bool :=
  match destination with
  | .ndarray _ _ b => decide (b ≠ source.bandsOf)
  | .band _ _ _ => false

/-- Embedding of the nodata resolution and validation of `_reproject`
(`_warp.pyx` lines 199-469), in source order: inherit the source nodata,
check the destination shape, inherit the destination nodata, fail if a
destination nodata is requested without a resolvable source nodata, default
the destination nodata to the source nodata or 0, then validate both
against their dtype ranges. Returns the effective pair. -/
def reprojectNodata (source destination : RasterInput)
    (src_nodata dst_nodata : Option ℚ) :
    Except ReprojectError (Option ℚ × ℚ) :=
  let sn := inheritNodata source src_nodata
  if shapeBad source destination then .error .shapeError
  else
    let dn := inheritNodata destination dst_nodata
    if sn = none ∧ dn ≠ none then .error .configurationError
    else
      let dnv : ℚ :=
        match dn with
        | some w => w
        | none => match sn with | some v => v | none => 0
      match sn with
      | some v =>
        if in_dtype_range v source.dtypeOf = false then .error .rangeError
        else if in_dtype_range dnv destination.dtypeOf = false then
          .error .rangeError
        else .ok (some v, dnv)
      | none =>
        if in_dtype_range dnv destination.dtypeOf = false then .error .rangeError
        else .ok (none, dnv)

/-- The rest of a `_reproject` call after nodata validation (warp-option
assembly, the chunked warp, and the read-back), abstracted as `warp`: it is
only invoked when every nodata check passed. -/
def reprojectRun {α : Type} (warp : Option ℚ × ℚ → α)
    (source destination : RasterInput) (src_nodata dst_nodata : Option ℚ) :
    Except ReprojectError α :=
  (reprojectNodata source destination src_nodata dst_nodata).map warp

/-- The effective destination nodata after inheritance and defaulting. -/
def effectiveDstNodata (source destination : RasterInput)
    (src_nodata dst_nodata : Option ℚ) : ℚ :=
  (inheritNodata destination dst_nodata).getD
    ((inheritNodata source src_nodata).getD 0)

/-! ### Band transfers (`part_000`: `io_band`, `io_multi_band`, `io_multi_mask`)

The GDAL engine is modelled as an oracle. The process-wide configuration
option `GDAL_RASTERIO_RESAMPLING` is the explicit state `ConfigState`,
threaded through each call: the code saves it with `CPLGetConfigOption`,
overrides it with the uppercased resampling name, and puts the saved value
back with `CPLSetConfigOption` before returning — except that
`io_multi_mask` raises `ValueError` from inside its loop, skipping the
restore on those paths. Transfer status codes are integers; a non-zero
status is the failure the spec calls `IOFailure`. -/
/-- The resampling algorithms of `rasterio.enums.Resampling`. -/
inductive Resampling where
  | nearest | bilinear | cubic | cubic_spline | lanczos | average | mode
deriving DecidableEq, Repr

/-- Python `Resampling(resampling).name.upper()`. -/
def Resampling.optionValue : Resampling → String
  | .nearest => "NEAREST"
  | .bilinear => "BILINEAR"
  | .cubic => "CUBIC"
  | .cubic_spline => "CUBIC_SPLINE"
  | .lanczos => "LANCZOS"
  | .average => "AVERAGE"
  | .mode => "MODE"

/-- The process-wide GDAL configuration state relevant here: the value of
the GDAL_RASTERIO_RESAMPLING option (`none` models an unset option, the
NULL of `CPLGetConfigOption`). -/
structure ConfigState where
  resamplingOpt : Option String
deriving DecidableEq, Repr

/-- Spec `IOFailure`: a band transfer reported a non-zero status. -/
def isIOFailure (status : ℤ) : Prop := status ≠ 0

/-- Oracle for `GDALRasterIO` on a single band: the status the engine
reports, as a function of the configuration state it observes. -/
structure BandTransferEnv where
  rasterStatus : ConfigState → ℤ

/-- Embedding of `io_band` (`part_000`, lines 14-55): save the resampling
option, override it, run the engine transfer, restore the option, and
return the engine status unchanged. -/
def io_band (env : BandTransferEnv) (resampling : Resampling)
    (st : ConfigState) : ℤ × ConfigState :=
  let stored := st.resamplingOpt
  let overridden : ConfigState := ⟨some resampling.optionValue⟩
  let retval := env.rasterStatus overridden
  (retval, ⟨stored⟩)

/-- Oracle for `GDALDatasetRasterIO`: the status the engine reports given
the configuration state and the band map. -/
structure MultiBandTransferEnv where
  datasetStatus : ConfigState → List ℤ → ℤ

/-- Embedding of `io_multi_band` (`part_000`, lines 58-107): same
save/override/transfer/restore shape as `io_band`, with the band map built
from `indexes`. -/
def io_multi_band (env : MultiBandTransferEnv) (resampling : Resampling)
    (indexes : List ℤ) (st : ConfigState) : ℤ × ConfigState :=
  let stored := st.resamplingOpt
  let overridden : ConfigState := ⟨some resampling.optionValue⟩
  let bandmap := indexes
  let retval := env.datasetStatus overridden bandmap
  (retval, ⟨stored⟩)

/-- Failure kinds of `io_multi_mask`: the three `ValueError` raises in its
loop (all `NullChannelFailure` in the spec taxonomy) plus `invalidInput`,
the spec kind for malformed input, which no path of this code produces. -/
inductive MaskIOError where
  | nullBand
  | nullMaskBand
  | nullData
  | invalidInput
deriving DecidableEq, Repr

/-- Oracle for the engine calls made by `io_multi_mask`: band handle lookup
(`GDALGetRasterBand`, `none` is NULL), mask band lookup
(`GDALGetMaskBand`), the buffer slice base address (`PyArray_DATA` of
`data[i]`), and the mask transfer status. -/
structure MaskTransferEnv where
  getBand : ℤ → Option ℕ
  getMask : ℕ → Option ℕ
  bufAddr : ℕ → Option ℕ
  maskStatus : ConfigState → ℕ → ℤ

/-- One iteration of the `io_multi_mask` loop at selection entry `j`,
buffer slice `i`: resolve the band, its mask band and the slice address
(each `none` is the corresponding `ValueError` raise), then run the mask
transfer and report its status. -/
def maskStep (env : MaskTransferEnv) (cfg : ConfigState) (j : ℤ) (i : ℕ) :
    Except MaskIOError ℤ :=
  match env.getBand j with
  | none => .error .nullBand
  | some band =>
    match env.getMask band with
    | none => .error .nullMaskBand
    | some hmask =>
      match env.bufAddr i with
      | none => .error .nullData
      | some _ => .ok (env.maskStatus cfg hmask)

/-- The `for i in range(count)` loop of `io_multi_mask`, carrying the loop
position and the current `retval` (initially 3); returns the loop outcome
and the list of selection entries whose mask transfer was executed, in
order. A non-zero status is the `break`; an unresolvable band, mask band
or slice address is the raise. -/
def maskLoop (env : MaskTransferEnv) (cfg : ConfigState) :
    List ℤ → ℕ → ℤ → (Except MaskIOError ℤ) × List ℤ
  | [], _, retval => (.ok retval, [])
  | j :: rest, i, _ =>
    match env.getBand j with
    | none => (.error .nullBand, [])
    | some band =>
      match env.getMask band with
      | none => (.error .nullMaskBand, [])
      | some hmask =>
        match env.bufAddr i with
        | none => (.error .nullData, [])
        | some _ =>
          let retval := env.maskStatus cfg hmask
          if retval ≠ 0 then (.ok retval, [j])
          else
            let next := maskLoop env cfg rest (i + 1) retval
            (next.1, j :: next.2)

/-- Embedding of `io_multi_mask` (`part_000`, lines 110-167): save the
resampling option, override it, run the loop, and restore the option only
on the non-raising exits — the three `ValueError` raises leave the
override in place, because they skip the `CPLSetConfigOption` restore at
the end of the function. Result: loop outcome, final configuration state,
and the entries whose transfer was executed. -/
def io_multi_mask (env : MaskTransferEnv) (resampling : Resampling)
    (indexes : List ℤ) (st : ConfigState) :
    (Except MaskIOError ℤ) × ConfigState × List ℤ :=
  let stored := st.resamplingOpt
  let overridden : ConfigState := ⟨some resampling.optionValue⟩
  match maskLoop env overridden indexes 0 3 with
  | (.ok v, tr) => (.ok v, ⟨stored⟩, tr)
  | (.error e, tr) => (.error e, overridden, tr)

/-- An engine in which no selection entry resolves to a band handle. -/
def badMaskEnv : MaskTransferEnv :=
  ⟨fun _ => none, fun _ => none, fun _ => none, fun _ _ => 0⟩

/-! ### The transformer chain of `_reproject` (`_warp.pyx`, lines 359-396)

The image-to-image transformer options are built from a NULL string list.
Line 365 calls `CSLSetNameValue(imgProjOptions, "GCPS_OK", "TRUE")` but —
unlike every other `CSLSetNameValue` call site in the file — does not
assign the returned list back to `imgProjOptions`; since the input list is
NULL, the entry is written to a fresh list that is immediately lost, and
`imgProjOptions` stays NULL. The kwargs loop (lines 372-376) does assign,
so the final options hold only the uppercased kwargs. -/
/-- Python `str.upper()` on an ASCII keyword-option string. -/
def pyUpper (s : String) : String :=
  ⟨s.data.map Char.toUpper⟩

/-- The `imgProjOptions` list of `_reproject` exactly as the code builds
it: the `GCPS_OK` result is computed and discarded, then each extra
keyword option is folded in with key and value uppercased. -/
def buildImgProjOptions (kwargs : List (String × String)) :
    List (String × String) :=
  let imgProjOptions : List (String × String) := []
  let _discarded := CSLSetNameValue imgProjOptions "GCPS_OK" "TRUE"
  kwargs.foldl (fun acc kv => CSLSetNameValue acc (pyUpper kv.1) (pyUpper kv.2))
    imgProjOptions

/-- The transformer chain `_reproject` constructs: an exact image-to-image
projection transformer between the two dataset handles with the built
options, wrapped by `GDALCreateApproxTransformer` at tolerance 0.125 and
marked as owning its subtransformer. -/
structure TransformerChain where
  srcDataset : ℕ
  dstDataset : ℕ
  imgProjOptions : List (String × String)
  tolerance : ℚ
  ownsSubtransformer : Bool
deriving DecidableEq, Repr

/-- Embedding of the transformer-chain construction of `_reproject`
(`_warp.pyx` lines 359-396): `tolerance` is the fixed 0.125 of line 196. -/
def buildTransformerChain (src dst : ℕ) (kwargs : List (String × String)) :
    TransformerChain :=
  ⟨src, dst, buildImgProjOptions kwargs, 0.125, true⟩

/-! ### `_calculate_default_transform` (`_warp.pyx`, lines 532-599) -/
/-- The two native error kinds the error-capture scope can report around
the extent-suggestion step. -/
inductive CPLErrKind where
  | notSupported (msg : String)
  | appDefined (msg : String)
deriving DecidableEq, Repr

/-- What the native extent-suggestion step did: the values it wrote into
the output parameters (`geotransform`, `npixels`, `nlines`, all initialized
to zeros) and the captured error, if any. -/
structure SuggestOutcome where
  geotransform : List ℚ
  npixels : ℤ
  nlines : ℤ
  err : Option CPLErrKind
deriving DecidableEq, Repr

/-- Failure kinds of `_calculate_default_transform`: the partial bounding
box `ValueError` (spec `ConfigurationError`), a not-supported native error
re-raised as `CRSError`, and a re-raised app-defined native error. -/
inductive CalcTransformError where
  | configurationError
  | crsError (msg : String)
  | appDefined (msg : String)
deriving DecidableEq, Repr

/-- Python `needle in hay` on character lists. -/
def containsSub : List Char → List Char → Bool
  | needle, [] => needle.isEmpty
  | needle, c :: rest => needle.isPrefixOf (c :: rest) || containsSub needle rest

/-- Python `needle in hay` on strings. -/
def pyIn (needle hay : String) : Bool := containsSub needle.data hay.data

/-- The `try/except` policy of `_calculate_default_transform` around the
native step: no captured error returns the computed values; a
not-supported error is re-raised as `CRSError`; an app-defined error whose
message contains "Reprojection failed" is demoted to a log line and the
values computed so far are still returned; any other app-defined error is
re-raised. -/
def suggestResolve (outcome : SuggestOutcome) :
    Except CalcTransformError (List ℚ × ℤ × ℤ) :=
  match outcome.err with
  | none => .ok (outcome.geotransform, outcome.npixels, outcome.nlines)
  | some (.notSupported m) => .error (.crsError m)
  | some (.appDefined m) =>
    if pyIn "Reprojection failed" m then
      .ok (outcome.geotransform, outcome.npixels, outcome.nlines)
    else .error (.appDefined m)

/-- Embedding of `_calculate_default_transform` (`_warp.pyx` lines
532-599): fully specified bounds seed the scratch geotransform, partially
specified bounds fail, then the native extent suggestion runs under the
error policy of `suggestResolve`. -/
def _calculate_default_transform (outcome : SuggestOutcome)
    (left bottom right top : Option ℚ) :
    Except CalcTransformError (List ℚ × ℤ × ℤ) :=
  if left.isSome && bottom.isSome && right.isSome && top.isSome then
    suggestResolve outcome
  else if left.isSome || bottom.isSome || right.isSome || top.isSome then
    .error .configurationError
  else suggestResolve outcome

/-- A concrete engine for the witnesses: selection entry 1 resolves to band
10 with mask 20 and transfers with status 0; entry 2 has no band handle;
every slice address is available. -/
def maskEnvWitness : MaskTransferEnv :=
  ⟨fun j => if j = 1 then some 10 else none,
   fun b => if b = 10 then some 20 else none,
   fun _ => some 0,
   fun _ _ => 0⟩

/-! ### Theorems -/

theorem nearestTiesEven_intCast (k : ℤ) : nearestTiesEven (k : ℚ) = k := by
  unfold nearestTiesEven
  simp

theorem pyRound_idem (q : ℚ) (p : ℤ) : pyRound (pyRound q p) p = pyRound q p := by
  unfold pyRound
  have hne : ((10 : ℚ) ^ p) ≠ 0 := zpow_ne_zero p (by norm_num)
  rw [div_mul_cancel₀ _ hne, nearestTiesEven_intCast]

mutual

theorem shape_recursive_round (p : ℤ) :
    (v : GeomVal) → shape (recursive_round p v) = shape v
  | .num _ => rfl
  | .arr l => congrArg GeomVal.arr (shapeList_recursive_round_list p l)

theorem shapeList_recursive_round_list (p : ℤ) :
    (l : List GeomVal) → shapeList (recursive_round_list p l) = shapeList l
  | [] => rfl
  | v :: rest => by
    simp only [recursive_round_list, shapeList]
    exact congrArg₂ List.cons (shape_recursive_round p v)
      (shapeList_recursive_round_list p rest)

end

mutual

theorem recursive_round_idem (p : ℤ) :
    (v : GeomVal) → recursive_round p (recursive_round p v) = recursive_round p v
  | .num q => congrArg GeomVal.num (pyRound_idem q p)
  | .arr l => congrArg GeomVal.arr (recursive_round_list_idem p l)

theorem recursive_round_list_idem (p : ℤ) :
    (l : List GeomVal) →
      recursive_round_list p (recursive_round_list p l) = recursive_round_list p l
  | [] => rfl
  | v :: rest => by
    simp only [recursive_round_list]
    exact congrArg₂ List.cons (recursive_round_idem p v)
      (recursive_round_list_idem p rest)

end

/-- C8: for every `_transform_geom` call with `precision >= 0` whose
transformation resolves and whose native transform returns coordinates
`coords`, the returned geometry is exactly `coords` with every numeric
component rounded to `precision` digits, recursively through nested lists;
in particular a point whose transformed coordinates equal its input
coordinates comes back as the same point rounded. -/
theorem transform_geom_rounds (E : TransformEngine) (src_crs dst_crs : String)
    (geom : Geometry) (cutting : Bool) (offset : ℚ) (precision : ℤ)
    (u : Unit) (coords : GeomVal) (hp : 0 ≤ precision)
    (hres : E.newTransformation src_crs dst_crs = some u)
    (htr : E.transformWithOptions (transformOptions offset cutting)
        geom.coordinates = .ok coords) :
    _transform_geom E src_crs dst_crs geom cutting offset precision =
        .ok ⟨geom.gtype, recursive_round precision coords⟩ ∧
      ∀ x y : ℚ, coords = .arr [.num x, .num y] →
        _transform_geom E src_crs dst_crs geom cutting offset precision =
          .ok ⟨geom.gtype,
            .arr [.num (pyRound x precision), .num (pyRound y precision)]⟩ := by
  have hmain : _transform_geom E src_crs dst_crs geom cutting offset precision =
      .ok ⟨geom.gtype, recursive_round precision coords⟩ := by
    simp [_transform_geom, hres, htr, hp]
  refine ⟨hmain, ?_⟩
  rintro x y rfl
  rw [hmain]
  simp [recursive_round, recursive_round_list]

/-- Witness for C8: a single point at the origin, transformed from a CRS to
itself with `precision = 2`, comes back as the same point (rounded to two
decimals, which leaves it unchanged). -/
theorem transform_geom_rounds_witness :
    _transform_geom identityTransformEngine "EPSG:4326" "EPSG:4326"
        ⟨"Point", .arr [.num 0, .num 0]⟩ true 10 2 =
      .ok ⟨"Point", .arr [.num 0, .num 0]⟩ := by
  have h := (transform_geom_rounds identityTransformEngine "EPSG:4326"
    "EPSG:4326" ⟨"Point", .arr [.num 0, .num 0]⟩ true 10 2 ()
    (.arr [.num 0, .num 0]) (by norm_num) rfl rfl).2 0 0 rfl
  rw [h]
  norm_num [pyRound, nearestTiesEven]

/-- C1: in a `_reproject` call that passes the shape check, if a destination
nodata is requested (explicitly or inherited) but no source nodata is
resolvable, the call fails with `ConfigurationError`; and when no
destination nodata is given, any successful resolution uses the source
nodata if resolvable and 0 otherwise as the effective destination nodata. -/
theorem reproject_nodata_policy (source destination : RasterInput)
    (sn0 dn0 : Option ℚ) (hshape : shapeBad source destination = false) :
    (inheritNodata source sn0 = none →
      (inheritNodata destination dn0).isSome = true →
      reprojectRun (fun r => r) source destination sn0 dn0 =
        .error .configurationError) ∧
    (inheritNodata destination dn0 = none →
      ∀ sn dnv, reprojectNodata source destination sn0 dn0 = .ok (sn, dnv) →
        dnv = (inheritNodata source sn0).getD 0) := by
  constructor
  · intro hsn hdn
    have hdn' : inheritNodata destination dn0 ≠ none := by
      cases h : inheritNodata destination dn0 with
      | none => rw [h] at hdn; simp at hdn
      | some v => simp
    simp [reprojectRun, reprojectNodata, Except.map, hshape, hsn, hdn']
  · intro hdn sn dnv hok
    cases hsn : inheritNodata source sn0 with
    | none =>
      simp only [reprojectNodata, hshape, hsn, hdn] at hok
      simp only [Bool.false_eq_true, if_false] at hok
      simp only [ne_eq, not_true_eq_false, and_false, if_false] at hok
      split at hok
      · exact absurd hok (by simp)
      · simp only [Except.ok.injEq, Prod.mk.injEq] at hok
        simp [← hok.2]
    | some v =>
      simp only [reprojectNodata, hshape, hsn, hdn] at hok
      simp only [Bool.false_eq_true, if_false] at hok
      simp only [reduceCtorEq, false_and, if_false] at hok
      split at hok
      · exact absurd hok (by simp)
      · split at hok
        · exact absurd hok (by simp)
        · simp only [Except.ok.injEq, Prod.mk.injEq] at hok
          simp [← hok.2]

/-- Witness for C1: `dst_nodata = 5` with an unresolvable source nodata on
two single-band uint8 ndarrays fails with `ConfigurationError`. -/
theorem reproject_nodata_policy_witness :
    reprojectRun (fun r => r) (RasterInput.ndarray .uint8 none 1)
        (RasterInput.ndarray .uint8 none 1) none (some 5) =
      .error .configurationError :=
  (reproject_nodata_policy (RasterInput.ndarray .uint8 none 1)
    (RasterInput.ndarray .uint8 none 1) none (some 5) rfl).1 rfl rfl

/-- C2: in a `_reproject` call that passes the shape check and the
destination-without-source configuration check, if the effective source
nodata lies outside the source dtype range, or the effective destination
nodata lies outside the destination dtype range, the call fails with
`RangeError` and the warp step is never executed (the result is the error
for every possible warp continuation). -/
theorem reproject_range_validation {α : Type} (warp : Option ℚ × ℚ → α)
    (source destination : RasterInput) (sn0 dn0 : Option ℚ)
    (hshape : shapeBad source destination = false)
    (hcfg : ¬(inheritNodata source sn0 = none ∧
      inheritNodata destination dn0 ≠ none))
    (hout : (∃ v, inheritNodata source sn0 = some v ∧
        in_dtype_range v source.dtypeOf = false) ∨
      in_dtype_range (effectiveDstNodata source destination sn0 dn0)
        destination.dtypeOf = false) :
    reprojectRun warp source destination sn0 dn0 = .error .rangeError := by
  cases hsn : inheritNodata source sn0 with
  | none =>
    have hdn : inheritNodata destination dn0 = none := by
      by_contra h
      exact hcfg ⟨hsn, h⟩
    rcases hout with ⟨v, hv, _⟩ | hout
    · rw [hsn] at hv; exact absurd hv (by simp)
    · simp only [effectiveDstNodata, hsn, hdn, Option.getD_none] at hout
      simp [reprojectRun, reprojectNodata, Except.map, hshape, hsn, hdn, hout]
  | some v =>
    rcases hout with ⟨w, hw, hrange⟩ | hout
    · rw [hsn] at hw
      have hvw : v = w := by injection hw
      subst hvw
      cases hdn : inheritNodata destination dn0 with
      | none => simp [reprojectRun, reprojectNodata, Except.map, hshape, hsn, hdn, hrange]
      | some w' => simp [reprojectRun, reprojectNodata, Except.map, hshape, hsn, hdn, hrange]
    · cases hdn : inheritNodata destination dn0 with
      | none =>
        simp only [effectiveDstNodata, hsn, hdn, Option.getD_none,
          Option.getD_some] at hout
        by_cases hsrcok : in_dtype_range v source.dtypeOf = false
        · simp [reprojectRun, reprojectNodata, Except.map, hshape, hsn, hdn, hsrcok]
        · simp [reprojectRun, reprojectNodata, Except.map, hshape, hsn, hdn, hsrcok, hout]
      | some w' =>
        simp only [effectiveDstNodata, hsn, hdn, Option.getD_some] at hout
        by_cases hsrcok : in_dtype_range v source.dtypeOf = false
        · simp [reprojectRun, reprojectNodata, Except.map, hshape, hsn, hdn, hsrcok]
        · simp [reprojectRun, reprojectNodata, Except.map, hshape, hsn, hdn, hsrcok, hout]

/-- Witness for C2: `src_nodata = 5` on a float64 source with a uint8
destination and `dst_nodata = -1` fails with `RangeError`. -/
theorem reproject_range_validation_witness :
    reprojectRun (fun r => r) (RasterInput.ndarray .float64 none 1)
        (RasterInput.ndarray .uint8 none 1) (some 5) (some (-1)) =
      .error .rangeError :=
  reproject_range_validation (fun r => r) (RasterInput.ndarray .float64 none 1)
    (RasterInput.ndarray .uint8 none 1) (some 5) (some (-1)) rfl
    (by decide) (Or.inr (by decide))

/-- C10: for every nested coordinate structure `val` and every non-negative
precision `p`, `recursive_round val p` has exactly the nesting structure and
lengths of `val`, and `recursive_round` is idempotent at `(val, p)`. -/
theorem recursive_round_shape_and_idem (val : GeomVal) (p : ℕ) :
    shape (recursive_round (p : ℤ) val) = shape val ∧
      recursive_round (p : ℤ) (recursive_round (p : ℤ) val) =
        recursive_round (p : ℤ) val :=
  ⟨shape_recursive_round (p : ℤ) val, recursive_round_idem (p : ℤ) val⟩

/-- C3: `io_band` returns the engine transfer status unchanged, so a
non-zero status — recognized or not — is surfaced to the caller as the
failure the spec calls `IOFailure`, never swallowed. -/
theorem io_band_surfaces_status (env : BandTransferEnv) (r : Resampling)
    (st : ConfigState) (s : ℤ)
    (hstat : env.rasterStatus ⟨some r.optionValue⟩ = s) (hs : s ≠ 0) :
    (io_band env r st).1 = s ∧ isIOFailure (io_band env r st).1 := by
  have h : (io_band env r st).1 = s := by
    simp [io_band, hstat]
  exact ⟨h, by rw [h]; exact hs⟩

/-- Witness for C3: an engine reporting the unrecognized status 42 makes
`io_band` return 42, a failure. -/
theorem io_band_surfaces_status_witness :
    (io_band ⟨fun _ => 42⟩ .nearest ⟨none⟩).1 = 42 ∧
      isIOFailure (io_band ⟨fun _ => 42⟩ .nearest ⟨none⟩).1 :=
  io_band_surfaces_status ⟨fun _ => 42⟩ .nearest ⟨none⟩ 42 rfl (by decide)

/-- Unfolding one iteration of the `io_multi_mask` loop as `maskStep`. -/
theorem maskLoop_cons (env : MaskTransferEnv) (cfg : ConfigState) (j : ℤ)
    (rest : List ℤ) (i : ℕ) (r0 : ℤ) :
    maskLoop env cfg (j :: rest) i r0 =
      match maskStep env cfg j i with
      | .error e => (.error e, [])
      | .ok s =>
        if s ≠ 0 then (.ok s, [j])
        else ((maskLoop env cfg rest (i + 1) s).1,
          j :: (maskLoop env cfg rest (i + 1) s).2) := by
  cases hb : env.getBand j with
  | none => simp [maskLoop, maskStep, hb]
  | some band =>
    cases hm : env.getMask band with
    | none => simp [maskLoop, maskStep, hb, hm]
    | some hmask =>
      cases ha : env.bufAddr i with
      | none => simp [maskLoop, maskStep, hb, hm, ha]
      | some a => simp [maskLoop, maskStep, hb, hm, ha]

/-- Running the loop over a prefix whose every step succeeds with status 0
reaches the remainder with the loop position advanced and the prefix
prepended, in order, to the executed-transfer list. -/
theorem maskLoop_append (env : MaskTransferEnv) (cfg : ConfigState) :
    ∀ (pre rest : List ℤ) (n : ℕ) (r0 : ℤ),
      (∀ k (hk : k < pre.length),
        maskStep env cfg (pre.get ⟨k, hk⟩) (n + k) = .ok 0) →
      maskLoop env cfg (pre ++ rest) n r0 =
        ((maskLoop env cfg rest (n + pre.length)
            (if pre.length = 0 then r0 else 0)).1,
          pre ++ (maskLoop env cfg rest (n + pre.length)
            (if pre.length = 0 then r0 else 0)).2)
  | [], rest, n, r0, _ => by simp
  | j :: pre, rest, n, r0, hpre => by
    have hj : maskStep env cfg j n = .ok 0 := by
      have := hpre 0 (by simp)
      simpa using this
    have ih := maskLoop_append env cfg pre rest (n + 1) 0
      (fun k hk => by
        have := hpre (k + 1) (by simpa using Nat.succ_lt_succ hk)
        simpa [Nat.add_assoc, Nat.add_comm 1 k] using this)
    simp only [ite_self] at ih
    rw [List.cons_append, maskLoop_cons, hj]
    dsimp only
    rw [if_neg (by norm_num : ¬((0 : ℤ) ≠ 0))]
    rw [ih]
    have hlen : n + 1 + pre.length = n + (j :: pre).length := by
      simp only [List.length_cons]
      omega
    rw [hlen]
    simp [List.length_cons]

/-- C6: for any `io_multi_mask` call whose selection splits as
`pre ++ j :: post` with every entry of `pre` succeeding (status 0) and the
step at `j` failing, the entries are processed in selection order and the
call stops at `j`: a resolution failure at `j` surfaces that
`NullChannelFailure` with only `pre` transferred, a non-zero engine status
at `j` surfaces that status with only `pre ++ [j]` transferred — `post` is
never attempted, whatever it contains. -/
theorem io_multi_mask_first_failure (env : MaskTransferEnv) (r : Resampling)
    (st : ConfigState) (pre post : List ℤ) (j : ℤ)
    (hpre : ∀ k (hk : k < pre.length),
      maskStep env ⟨some r.optionValue⟩ (pre.get ⟨k, hk⟩) k = .ok 0) :
    (∀ e, maskStep env ⟨some r.optionValue⟩ j pre.length = .error e →
      io_multi_mask env r (pre ++ j :: post) st =
        (.error e, ⟨some r.optionValue⟩, pre)) ∧
    (∀ s, s ≠ 0 → maskStep env ⟨some r.optionValue⟩ j pre.length = .ok s →
      io_multi_mask env r (pre ++ j :: post) st =
        (.ok s, ⟨st.resamplingOpt⟩, pre ++ [j])) := by
  have hsplit := maskLoop_append env ⟨some r.optionValue⟩ pre (j :: post) 0 3
    (fun k hk => by simpa using hpre k hk)
  simp only [Nat.zero_add] at hsplit
  constructor
  · intro e he
    have hcons := maskLoop_cons env ⟨some r.optionValue⟩ j post pre.length
      (if pre.length = 0 then 3 else 0)
    rw [he] at hcons
    simp only [io_multi_mask]
    rw [hsplit, hcons]
    simp
  · intro s hs hok
    have hcons := maskLoop_cons env ⟨some r.optionValue⟩ j post pre.length
      (if pre.length = 0 then 3 else 0)
    rw [hok] at hcons
    dsimp only at hcons
    rw [if_pos hs] at hcons
    simp only [io_multi_mask]
    rw [hsplit, hcons]

/-- Witness for C6: with selection `[1, 2, 3]`, entry 1 succeeds, entry 2
has no band, so the call fails with the Null band error after transferring
only entry 1 — entry 3 is never attempted. -/
theorem io_multi_mask_first_failure_witness :
    io_multi_mask maskEnvWitness .nearest [1, 2, 3] ⟨none⟩ =
      (.error .nullBand, ⟨some "NEAREST"⟩, [1]) :=
  (io_multi_mask_first_failure maskEnvWitness .nearest ⟨none⟩ [1] [3] 2
    (fun k hk => by
      match k, hk with
      | 0, _ => rfl)).1 .nullBand rfl

/-- C4 counterexample: `io_multi_mask` on a selection whose first entry has
no band handle raises with the resampling option still overridden: before
the call the option was unset, after the failed call it is "NEAREST" — the
raise skips the restore. -/
theorem io_multi_mask_restore_counterexample :
    (io_multi_mask badMaskEnv .nearest [1] ⟨none⟩).2.1 = ⟨some "NEAREST"⟩ ∧
      (⟨some "NEAREST"⟩ : ConfigState) ≠ (⟨none⟩ : ConfigState) := by
  refine ⟨rfl, ?_⟩
  simp

/-- C4 (amended): `io_band` and `io_multi_band` restore the saved
resampling option on every exit; `io_multi_mask` restores it on every
non-raising exit (normal completion and the non-zero-status break), but
when it raises a null-channel failure the override is left in place. -/
theorem io_transfer_config_restore (envB : BandTransferEnv)
    (envM : MultiBandTransferEnv) (envK : MaskTransferEnv) (r : Resampling)
    (idxs midxs : List ℤ) (st : ConfigState) :
    (io_band envB r st).2 = ⟨st.resamplingOpt⟩ ∧
    (io_multi_band envM r idxs st).2 = ⟨st.resamplingOpt⟩ ∧
    (∀ v, (io_multi_mask envK r midxs st).1 = .ok v →
      (io_multi_mask envK r midxs st).2.1 = ⟨st.resamplingOpt⟩) ∧
    (∀ e, (io_multi_mask envK r midxs st).1 = .error e →
      (io_multi_mask envK r midxs st).2.1 = ⟨some r.optionValue⟩) := by
  refine ⟨rfl, rfl, ?_, ?_⟩
  · intro v hv
    rcases h : maskLoop envK ⟨some r.optionValue⟩ midxs 0 3 with ⟨res, tr⟩
    cases res with
    | ok w => simp [io_multi_mask, h]
    | error e => simp [io_multi_mask, h] at hv
  · intro e he
    rcases h : maskLoop envK ⟨some r.optionValue⟩ midxs 0 3 with ⟨res, tr⟩
    cases res with
    | ok w => simp [io_multi_mask, h] at he
    | error f => simp [io_multi_mask, h]

/-- Witness for C4 (amended): a successful one-entry mask transfer restores
the prior option value, while the null-band raise leaves "NEAREST" set. -/
theorem io_transfer_config_restore_witness :
    (io_multi_mask maskEnvWitness .nearest [1] ⟨some "PRIOR"⟩).2.1 =
        ⟨some "PRIOR"⟩ ∧
      (io_multi_mask badMaskEnv .nearest [1] ⟨some "PRIOR"⟩).2.1 =
        ⟨some "NEAREST"⟩ :=
  ⟨(io_transfer_config_restore ⟨fun _ => 0⟩ ⟨fun _ _ => 0⟩ maskEnvWitness
      .nearest [] [1] ⟨some "PRIOR"⟩).2.2.1 0 rfl,
    (io_transfer_config_restore ⟨fun _ => 0⟩ ⟨fun _ _ => 0⟩ badMaskEnv
      .nearest [] [1] ⟨some "PRIOR"⟩).2.2.2 .nullBand rfl⟩

/-- C5 counterexample: `io_multi_mask` with an empty selection does not
raise any error — in particular not `invalidInput` — it returns the
initial status 3. -/
theorem io_multi_mask_empty_counterexample :
    (io_multi_mask badMaskEnv .nearest [] ⟨none⟩).1 = .ok 3 ∧
      (io_multi_mask badMaskEnv .nearest [] ⟨none⟩).1 ≠
        .error .invalidInput := by
  have h1 : (io_multi_mask badMaskEnv .nearest [] ⟨none⟩).1 = .ok 3 := rfl
  refine ⟨h1, ?_⟩
  rw [h1]
  simp

/-- C5 (amended): `io_multi_mask` with an empty selection executes no
transfer and raises nothing; it returns its initial status 3 with the
option restored — a non-zero (failure) status, but not a distinct
invalid-input error. -/
theorem io_multi_mask_empty_selection (env : MaskTransferEnv)
    (r : Resampling) (st : ConfigState) :
    io_multi_mask env r [] st = (.ok 3, ⟨st.resamplingOpt⟩, []) ∧
      isIOFailure 3 := by
  refine ⟨rfl, ?_⟩
  simp [isIOFailure]

/-- C7: evaluating the transformer-chain construction at the failing input
(no extra keyword options). The exact transformer options do NOT contain
GCPS_OK, because line 365 of `_warp.pyx` discards the list returned by
`CSLSetNameValue` (third conjunct: the discarded list did contain it);
the approximate wrapper does have the fixed 0.125 tolerance and does own
its subtransformer; kwargs are passed through uppercased. -/
theorem transformer_chain_gcps_ok_missing :
    CSLFetchNameValue (buildTransformerChain 0 1 []).imgProjOptions
        "GCPS_OK" = none ∧
      (buildTransformerChain 0 1 []).imgProjOptions = [] ∧
      CSLFetchNameValue (CSLSetNameValue [] "GCPS_OK" "TRUE") "GCPS_OK" =
        some "TRUE" ∧
      (buildTransformerChain 0 1 []).tolerance = 0.125 ∧
      (buildTransformerChain 0 1 []).ownsSubtransformer = true ∧
      (buildTransformerChain 0 1 [("max_gcp_order", "2")]).imgProjOptions =
        [("MAX_GCP_ORDER", "2")] :=
  ⟨rfl, rfl, rfl, rfl, rfl, by decide⟩

/-- C9: for every `_calculate_default_transform` call with valid bounds
(fully specified or absent) in which the native extent-suggestion step
reports an app-defined error, the call returns the geotransform and pixel
dimensions computed so far when the message contains "Reprojection
failed", and re-raises the app-defined error otherwise. -/
theorem calc_default_transform_error_policy (outcome : SuggestOutcome)
    (left bottom right top : Option ℚ) (m : String)
    (hbounds : (left.isSome ∧ bottom.isSome ∧ right.isSome ∧ top.isSome) ∨
      (left = none ∧ bottom = none ∧ right = none ∧ top = none))
    (herr : outcome.err = some (.appDefined m)) :
    (pyIn "Reprojection failed" m = true →
      _calculate_default_transform outcome left bottom right top =
        .ok (outcome.geotransform, outcome.npixels, outcome.nlines)) ∧
    (pyIn "Reprojection failed" m = false →
      _calculate_default_transform outcome left bottom right top =
        .error (.appDefined m)) := by
  have hres : _calculate_default_transform outcome left bottom right top =
      suggestResolve outcome := by
    rcases hbounds with ⟨h1, h2, h3, h4⟩ | ⟨h1, h2, h3, h4⟩
    · simp [_calculate_default_transform, h1, h2, h3, h4]
    · simp [_calculate_default_transform, h1, h2, h3, h4]
  constructor
  · intro hin
    rw [hres]
    simp [suggestResolve, herr, hin]
  · intro hout
    rw [hres]
    simp [suggestResolve, herr, hout]

/-- Witness for C9: the engine writes a geotransform and sizes, then
reports the suppressible app-defined condition; the call still returns the
computed values. -/
theorem calc_default_transform_error_policy_witness :
    _calculate_default_transform
        ⟨[1, 2, 3, 4, 5, 6], 10, 20,
          some (.appDefined "Reprojection failed, err = -14")⟩
        none none none none =
      .ok ([1, 2, 3, 4, 5, 6], 10, 20) :=
  (calc_default_transform_error_policy
    ⟨[1, 2, 3, 4, 5, 6], 10, 20,
      some (.appDefined "Reprojection failed, err = -14")⟩
    none none none none "Reprojection failed, err = -14"
    (Or.inr ⟨rfl, rfl, rfl, rfl⟩) rfl).1 rfl

end Rasterio
